import Mathlib

/-!
Verification development for the nc-recidivism pipeline (src/source/pipeline.py).

The embedding models the percentile-based labeling functions (`scores_pctpop`,
`pred_at_level`), the confusion-matrix metric functions, and the
train-eval orchestration loop (`classify`).  Numeric values that are Python
floats in the source are idealised as exact rationals (`ℚ`); machine floating
point is not modelled.  numpy's and pandas' default argsort is modelled as a
stable ascending sort (numpy's introsort is exactly insertion sort — hence
stable — in its small-array regime and leaves the order of ties unspecified
otherwise); pandas `sort_values(ascending=False)` and
`np.argsort(...)[::-1]` both reverse that ascending argsort.
-/

namespace NCRecidivism

/-- Python's built-in `round(x, 0)` on an exact rational value: round half to
even (banker's rounding), as used in
`num_pos = int(round(len(pred_scores)*(pct_pop/100), 0))` in `scores_pctpop`
(pipeline.py line 427).  `int()` of the resulting integral float is the same
integer. -/
def pythonRound (q : ℚ) : ℤ :=
  if q - ⌊q⌋ < Rat.divInt 1 2 then ⌊q⌋
  else if Rat.divInt 1 2 < q - ⌊q⌋ then ⌊q⌋ + 1
  else if ⌊q⌋ % 2 = 0 then ⌊q⌋ else ⌊q⌋ + 1

/-- Python's `int()` applied to an exact rational: truncation toward zero, as
used in `cutoff_index = int(len(y_scores) * (level / 100.0))` in
`pred_at_level` (pipeline.py line 454). -/
def pythonIntTrunc (q : ℚ) : ℤ := if 0 ≤ q then ⌊q⌋ else -⌊-q⌋

/-- `x / 100` on exact rationals, written as multiplication by `1/100`
(`Rat.divInt 1 100`) so that the kernel can evaluate it; `per100_eq` below
shows it equals `x / 100`. -/
def per100 (x : ℚ) : ℚ := x * Rat.divInt 1 100

/-- Score stored at position `i` of the score list (default 0 out of range;
every use below stays in range). -/
def scoreOf (s : List ℚ) (i : ℕ) : ℚ := s.getD i 0

/-- The comparison used by the ascending argsort of positions of `s`. -/
def ascRel (s : List ℚ) (i j : ℕ) : Prop := scoreOf s i ≤ scoreOf s j

instance ascRelDec (s : List ℚ) : DecidableRel (ascRel s) := fun i j =>
  inferInstanceAs (Decidable (scoreOf s i ≤ scoreOf s j))

/-- Ascending argsort of the positions `0, …, n-1` of `s`, modelling the
ascending argsort pandas/numpy compute (see the module docstring for the
stability caveat).  `List.insertionSort` is a stable sort: positions with
equal scores stay in ascending position order. -/
def argsortAsc (s : List ℚ) : List ℕ :=
  List.insertionSort (ascRel s) (List.range s.length)

/-- Descending sort of positions, exactly as both
`pred_df.sort_values(ascending=False)` (pandas `nargsort`: ascending argsort,
then `indexer[::-1]`) and `np.argsort(np.array(y_scores))[::-1]`
(pipeline.py line 452) compute it: the ascending argsort, reversed.  Note the
reversal sends equal-score positions into descending position order. -/
def sortDescIdx (s : List ℚ) : List ℕ := (argsortAsc s).reverse

/-- `scores_pctpop(pred_scores, pct_pop)` (pipeline.py lines 424-438).
`num_pos = int(round(len(pred_scores)*(pct_pop/100), 0))`; the predictions are
copied into a Series (the input is not mutated — in this pure embedding that
holds by construction), the Series is sorted descending, the first `num_pos`
positional indices are kept (`[0:num_pos]`, a Python slice, which clamps at
the length and counts from the end when `num_pos` is negative), every
position is zeroed and the kept positions are set to 1. -/
def scores_pctpop (pred_scores : List ℚ) (pct_pop : ℚ) : List ℕ :=
  let n := pred_scores.length
  let num_pos : ℤ := pythonRound ((n : ℚ) * per100 pct_pop)
  let takeCount : ℕ := if 0 ≤ num_pos then min num_pos.toNat n else n - (-num_pos).toNat
  let idx := (sortDescIdx pred_scores).take takeCount
  (List.range n).map (fun i => if i ∈ idx then 1 else 0)

/-- `pred_at_level(y_true, y_scores, level)` (pipeline.py lines 440-456):
`idx = np.argsort(np.array(y_scores))[::-1]`, `y_true` is re-ordered by `idx`,
`cutoff_index = int(len(y_scores) * (level / 100.0))`, and the returned label
vector marks the first `cutoff_index` positions of the sorted order with 1. -/
def pred_at_level (y_true y_scores : List ℚ) (level : ℚ) : List ℚ × List ℕ :=
  let idx := sortDescIdx y_scores
  let cutoff_index : ℤ := pythonIntTrunc ((y_scores.length : ℚ) * per100 level)
  (idx.map (fun i => y_true.getD i 0),
   (List.range y_scores.length).map (fun x => if (x : ℤ) < cutoff_index then 1 else 0))

/-- A numpy float64 scalar result: a finite value, `nan`, or a signed
infinity. -/
inductive PyFloat where
  | val (q : ℚ)
  | nan
  | inf
  | ninf
deriving DecidableEq

/-- The side-effect hooks the `classify` loop can invoke for one
configuration (pipeline.py lines 670-705). -/
inductive Hook where
  | histPlot
  | predDump
  | prPlot
  | biasPlot
deriving DecidableEq

/-- The Python exceptions the embedded code can raise. -/
inductive PyErr where
  | valueErrorLengthMismatch
  | valueErrorUnpack
  | fitError
  | hookError (h : Hook)
deriving DecidableEq

/-- numpy float64 division: division by zero yields `nan` (0/0) or a signed
infinity, with a `RuntimeWarning` — not an exception. -/
def npDiv (a b : ℚ) : PyFloat :=
  if b = 0 then (if a = 0 then .nan else if 0 < a then .inf else .ninf)
  else .val (a / b)

/-- True-positive count of a ground-truth/prediction pair. -/
def countTP (yt yp : List Bool) : ℕ := (yt.zip yp).countP (fun ab => ab.1 && ab.2)

/-- False-positive count. -/
def countFP (yt yp : List Bool) : ℕ := (yt.zip yp).countP (fun ab => !ab.1 && ab.2)

/-- False-negative count. -/
def countFN (yt yp : List Bool) : ℕ := (yt.zip yp).countP (fun ab => ab.1 && !ab.2)

/-- True-negative count. -/
def countTN (yt yp : List Bool) : ℕ := (yt.zip yp).countP (fun ab => !ab.1 && !ab.2)

/-- Whether both classes 0 and 1 occur somewhere in `y_true ++ y_pred` — the
set of labels sklearn's `confusion_matrix` derives when no explicit label list
is passed. -/
def twoClasses (yt yp : List Bool) : Bool :=
  (yt ++ yp).contains true && (yt ++ yp).contains false

/-- sklearn `confusion_matrix(y_true, y_predicted).ravel()` unpacked as
`tn, fp, fn, tp` for {0,1}-valued inputs:
inconsistent sample counts raise `ValueError` inside sklearn's validation;
when only one distinct label occurs in `y_true ++ y_pred` the matrix is 1x1
and the 4-way unpacking raises `ValueError` (modelled `valueErrorUnpack`). -/
def confusionRavel (yt yp : List Bool) : Except PyErr (ℕ × ℕ × ℕ × ℕ) :=
  if yt.length ≠ yp.length then .error .valueErrorLengthMismatch
  else if twoClasses yt yp = false then .error .valueErrorUnpack
  else .ok (countTN yt yp, countFP yt yp, countFN yt yp, countTP yt yp)

/-- `accuracy_at_threshold` (pipeline.py lines 384-395):
`tn, fp, fn, tp = confusion_matrix(...).ravel(); 1.0*(tp+tn)/(tn+fp+fn+tp)`. -/
def accuracy_at_threshold (yt yp : List Bool) : Except PyErr PyFloat :=
  match confusionRavel yt yp with
  | .error e => .error e
  | .ok (tn, fp, fn, tp) => .ok (npDiv ((tp : ℚ) + tn) ((tn : ℚ) + fp + fn + tp))

/-- `recall_at_threshold` (pipeline.py lines 397-408):
`_, _, fn, tp = confusion_matrix(...).ravel(); 1.0*tp/(tp+fn)`. -/
def recall_at_threshold (yt yp : List Bool) : Except PyErr PyFloat :=
  match confusionRavel yt yp with
  | .error e => .error e
  | .ok (_, _, fn, tp) => .ok (npDiv (tp : ℚ) ((tp : ℚ) + fn))

/-- `precision_at_threshold` (pipeline.py lines 410-422):
`_, fp, _, tp = confusion_matrix(...).ravel(); 1.0*tp/(tp+fp)`. -/
def precision_at_threshold (yt yp : List Bool) : Except PyErr PyFloat :=
  match confusionRavel yt yp with
  | .error e => .error e
  | .ok (_, fp, _, tp) => .ok (npDiv (tp : ℚ) ((tp : ℚ) + fp))

/-- `f1_at_threshold` (pipeline.py lines 371-381), delegating to sklearn
`f1_score`: lengths are validated (`ValueError` on mismatch); the score is
`2*tp / (2*tp + fp + fn)`, and sklearn's zero-division handling returns `0.0`
(with a warning, not an exception) when the denominator is zero.  There is no
1x1-ravel unpacking here, so single-class inputs do not crash. -/
def f1_at_threshold (yt yp : List Bool) : Except PyErr PyFloat :=
  if yt.length ≠ yp.length then .error .valueErrorLengthMismatch
  else
    let tp := countTP yt yp
    let fp := countFP yt yp
    let fn := countFN yt yp
    if 2 * tp + fp + fn = 0 then .ok (.val 0)
    else .ok (.val ((2 * tp : ℚ) / ((2 * tp : ℚ) + fp + fn)))

/-- A set of keyword-argument assignments for sklearn `set_params`
(hyperparameter values idealised as rationals). -/
abbrev Params := List (String × ℚ)

/-- `estimator.set_params(key=v)` for one key: overwrite the stored value if
the key is present, otherwise record it. -/
def setParam : Params → String → ℚ → Params
  | [], k, v => [(k, v)]
  | (k', v') :: rest, k, v =>
      if k' = k then (k, v) :: rest else (k', v') :: setParam rest k v

/-- `classifier.set_params(**parameters)` (pipeline.py line 657): every
key of `parameters` is written into the estimator's stored parameters — the
estimator object is mutated in place and returned. -/
def setParams (base : Params) (parameters : Params) : Params :=
  parameters.foldl (fun acc kv => setParam acc kv.1 kv.2) base

/-- Read one stored parameter of an estimator. -/
def lookupParam : Params → String → Option ℚ
  | [], _ => none
  | (k', v') :: rest, k => if k' = k then some v' else lookupParam rest k

/-- One CSV cell of a result row (`csv.writerow` serialises heterogeneous
Python values; the `classifiers` and `parameters` columns hold the repr of an
estimator's parameters and of the configuration dict). -/
inductive Cell where
  | s (v : String)
  | n (v : ℕ)
  | q (v : ℚ)
  | f (v : PyFloat)
  | ps (v : Params)
deriving DecidableEq

/-- The collaborators of one `classify` call (pipeline.py lines 601-719) that
are external to the loop itself: the module-level `classifiers` dict of
preconfigured estimator instances (line 570), fitting-and-scoring
(`clfr.fit` followed by `predict_proba`/`decision_function`; either may
raise), the test labels, the sizes and baseline computed once per split,
`config.POP_THRESHOLD`, whether each side-effect hook raises when invoked,
and the threshold-independent metric functions applied to raw scores. -/
structure ClassifyEnv where
  registry0 : String → Params
  fitScores : String → Params → Except PyErr (List ℚ)
  y_test : List Bool
  trainSize : ℕ
  numFeatures : ℕ
  testSize : ℕ
  baseline : ℚ
  popThreshold : ℚ
  histPlotFails : Bool
  predDumpFails : Bool
  prPlotFails : Bool
  biasPlotFails : Bool
  indepMetric : String → List ℚ → PyFloat
  otherMetric : String → List Bool → List ℕ → Except PyErr PyFloat

/-- Observable state threaded through the loop: the shared `classifiers`
registry (whose entries `set_params` mutates in place), the data rows so far
appended to the results csv, the log of side-effect hooks invoked, and the
log of estimator parameters as retrieved by `classifiers[model]` at the start
of each iteration. -/
structure RunState where
  registry : String → Params
  fileRows : List (List Cell)
  hooksRun : List Hook
  retrievedLog : List Params

/-- Predicted 0/1 labels as booleans. -/
def boolLabels (yp : List ℕ) : List Bool := yp.map (fun v => v == 1)

/-- `metrics[metric](y_test, y_pred)` for a threshold-dependent metric
(pipeline.py lines 459-463): dispatch on the `metrics` dict; names other than
the four embedded confusion-matrix metrics (e.g. `auc`) are delegated to the
environment. -/
def metricAtLevel (env : ClassifyEnv) (name : String) (yt : List Bool) (yp : List ℕ) :
    Except PyErr PyFloat :=
  if name = "accuracy" then accuracy_at_threshold yt (boolLabels yp)
  else if name = "precision" then precision_at_threshold yt (boolLabels yp)
  else if name = "recall" then recall_at_threshold yt (boolLabels yp)
  else if name = "f1" then f1_at_threshold yt (boolLabels yp)
  else env.otherMetric name yt yp

/-- `[metrics[metric](y_test, y_pred) for metric in eval_metrics_by_level[0]]`
(pipeline.py line 714); an exception from any metric propagates. -/
def evalLevelMetrics (env : ClassifyEnv) (yp : List ℕ) :
    List String → Except PyErr (List Cell)
  | [] => .ok []
  | m :: rest =>
      match metricAtLevel env m env.y_test yp with
      | .error e => .error e
      | .ok v =>
          match evalLevelMetrics env yp rest with
          | .error e => .error e
          | .ok vs => .ok (Cell.f v :: vs)

/-- The per-level loop (pipeline.py lines 712-714): for each level, convert
scores to labels with `scores_pctpop` and evaluate every level metric. -/
def levelsCells (env : ClassifyEnv) (scores : List ℚ) (levelMetrics : List String) :
    List ℕ → Except PyErr (List Cell)
  | [] => .ok []
  | level :: rest =>
      match evalLevelMetrics env (scores_pctpop scores (level : ℚ)) levelMetrics with
      | .error e => .error e
      | .ok cells =>
          match levelsCells env scores levelMetrics rest with
          | .error e => .error e
          | .ok more => .ok (cells ++ more)

/-- The side-effect phase of one iteration (pipeline.py lines 670-705), in
source order: `plot_scores_hist` is invoked UNCONDITIONALLY
(`output_type='save'`, line 674); the raw-prediction dump runs only under
`save_pred`; the precision/recall plot runs only under `plot_pr` and first
computes `recall_at_threshold(y_test, PREDICTION)` (line 690), whose own
exception also propagates; the bias plot runs only under `compute_bias`.
There is no `try`/`except`: the first exception stops the iteration.  Returns
the list of hooks invoked (in order) and the exception, if any. -/
def hooksPhase (env : ClassifyEnv) (plot_pr compute_bias save_pred : Bool)
    (prediction : List ℕ) : List Hook × Option PyErr :=
  if env.histPlotFails then ([Hook.histPlot], some (.hookError .histPlot)) else
  if save_pred && env.predDumpFails then
    ([Hook.histPlot, Hook.predDump], some (.hookError .predDump)) else
  let hooks1 := [Hook.histPlot] ++ (if save_pred then [Hook.predDump] else [])
  match (if plot_pr then recall_at_threshold env.y_test (boolLabels prediction)
         else .ok (.val 0)) with
  | .error e => (hooks1, some e)
  | .ok _ =>
    if plot_pr && env.prPlotFails then
      (hooks1 ++ [Hook.prPlot], some (.hookError .prPlot)) else
    let hooks2 := hooks1 ++ (if plot_pr then [Hook.prPlot] else [])
    if compute_bias && env.biasPlotFails then
      (hooks2 ++ [Hook.biasPlot], some (.hookError .biasPlot)) else
    (hooks2 ++ (if compute_bias then [Hook.biasPlot] else []), none)

/-- The body of `classify`'s grid loop for one `(model, parameters)` pair
(pipeline.py lines 653-719).  There is no `try`/`except` anywhere in
`classify`: any exception is returned and ends the run.  In source order:
`classifier = classifiers[model]` (shared instance retrieved — logged),
`clfr = classifier.set_params(**parameters)` (in-place mutation of the shared
registry entry), `clfr.fit` + scoring, the side-effect phase (`hooksPhase`),
with `PREDICTION = scores_pctpop(y_pred_prob, config.POP_THRESHOLD)`
(line 677), then the `eval_result` row, and — only inside the
`if eval_metrics_by_level[0]:` branch — the per-level metrics followed by the
row append to the csv (lines 711-719). -/
def classifyStep (env : ClassifyEnv) (year : ℕ) (eval_metrics levelMetrics : List String)
    (levels : List ℕ) (plot_pr compute_bias save_pred : Bool) (st : RunState)
    (model : String) (parameters : Params) : RunState × Option PyErr :=
  let classifier := st.registry model
  let clfrParams := setParams classifier parameters
  let st1 : RunState := { st with
    registry := fun m => if m = model then clfrParams else st.registry m,
    retrievedLog := st.retrievedLog ++ [classifier] }
  match env.fitScores model clfrParams with
  | .error _ => (st1, some .fitError)
  | .ok y_pred_prob =>
    let prediction := scores_pctpop y_pred_prob env.popThreshold
    match hooksPhase env plot_pr compute_bias save_pred prediction with
    | (hooks, some e) => ({ st1 with hooksRun := st1.hooksRun ++ hooks }, some e)
    | (hooks, none) =>
      let stH := { st1 with hooksRun := st1.hooksRun ++ hooks }
      let row0 : List Cell := [Cell.n year, Cell.s model, Cell.ps clfrParams,
        Cell.ps parameters, Cell.n env.trainSize, Cell.n env.numFeatures,
        Cell.n env.testSize, Cell.q env.baseline]
      let row1 := if eval_metrics.isEmpty then row0
        else row0 ++ eval_metrics.map (fun m => Cell.f (env.indepMetric m y_pred_prob))
      if levelMetrics.isEmpty then (stH, none)
      else
        match levelsCells env y_pred_prob levelMetrics levels with
        | .error e => (stH, some e)
        | .ok cells => ({ stH with fileRows := stH.fileRows ++ [row1 ++ cells] }, none)

/-- Sequential processing of the `(model, parameters)` pairs of the grid loop;
an exception from any iteration ends the run with the state reached so far. -/
def runPairs (env : ClassifyEnv) (year : ℕ) (eval_metrics levelMetrics : List String)
    (levels : List ℕ) (plot_pr compute_bias save_pred : Bool) (st : RunState) :
    List (String × Params) → RunState × Option PyErr
  | [] => (st, none)
  | (m, p) :: rest =>
      match classifyStep env year eval_metrics levelMetrics levels plot_pr compute_bias
          save_pred st m p with
      | (st', none) => runPairs env year eval_metrics levelMetrics levels plot_pr compute_bias
          save_pred st' rest
      | (st', some e) => (st', some e)

/-- The `(model, parameters)` pairs visited by the two nested loops
`for model in models: for parameters in ParameterGrid(custom_grid[model])`
(pipeline.py lines 649-653); the expanded grid of each model is an input. -/
def gridPairs (models : List String) (custom_grid : String → List Params) :
    List (String × Params) :=
  models.flatMap (fun m => (custom_grid m).map (fun p => (m, p)))

/-- `results_columns` (pipeline.py lines 623-624): the header of the results
csv.  Levels are integers here, so Python's `str(level)` agrees with
`toString`. -/
def results_columns (eval_metrics levelMetrics : List String) (levels : List ℕ) :
    List String :=
  ["year", "model", "classifiers", "parameters", "train_set_size", "num_features",
    "validation_set_size", "baseline"] ++ eval_metrics ++
    levels.flatMap (fun level => levelMetrics.map (fun metric => metric ++ "_" ++ toString level))

/-- The state at the start of a `classify` call: pristine registry, no rows,
no hooks invoked. -/
def initState (env : ClassifyEnv) : RunState :=
  { registry := env.registry0, fileRows := [], hooksRun := [], retrievedLog := [] }

/-- The whole `classify` call as far as the results csv is concerned: the
header row is written once (file opened with mode `"w"`, lines 627-630)
before the grid loop runs; every data row is appended (mode `"a"`) by
`classifyStep`.  Returns the final contents of the file together with the
exception that ended the run, if any. -/
def classifyFile (env : ClassifyEnv) (year : ℕ) (models : List String)
    (custom_grid : String → List Params) (eval_metrics levelMetrics : List String)
    (levels : List ℕ) (plot_pr compute_bias save_pred : Bool) :
    List (List Cell) × Option PyErr :=
  let res := runPairs env year eval_metrics levelMetrics levels plot_pr compute_bias save_pred
    (initState env) (gridPairs models custom_grid)
  (((results_columns eval_metrics levelMetrics levels).map Cell.s) :: res.1.fileRows, res.2)

/-- The hooks one fully successful iteration invokes, in source order. -/
def expectedHooks (plot_pr compute_bias save_pred : Bool) : List Hook :=
  [Hook.histPlot] ++ (if save_pred then [Hook.predDump] else []) ++
    (if plot_pr then [Hook.prPlot] else []) ++ (if compute_bias then [Hook.biasPlot] else [])

/-- The strict ordering in which the positions come out of the stable
ascending argsort: lower score first, equal scores in ascending original
position order. -/
def tieAscRank (s : List ℚ) (i j : ℕ) : Prop :=
  scoreOf s i < scoreOf s j ∨ (scoreOf s i = scoreOf s j ∧ i < j)

/-- The strict ordering in which the positions come out of the source's
descending sort (the reversed ascending argsort): higher score first, equal
scores in DESCENDING original position order. -/
def tieDescRank (s : List ℚ) (i j : ℕ) : Prop :=
  scoreOf s j < scoreOf s i ∨ (scoreOf s j = scoreOf s i ∧ j < i)

/-- The ranking relation claim C2 attributes to the labeler. -/
def specRel (s : List ℚ) (i j : ℕ) : Prop :=
  scoreOf s j < scoreOf s i ∨ (scoreOf s i = scoreOf s j ∧ i ≤ j)

instance specRelDec (s : List ℚ) : DecidableRel (specRel s) := fun i j =>
  inferInstanceAs (Decidable (scoreOf s j < scoreOf s i ∨ (scoreOf s i = scoreOf s j ∧ i ≤ j)))

/-- Written from the spec's words (claim C2, spec section 4.1) for comparison
with the source's ranking: "Sort indices by score descending; stable
tie-break by original index ascending", then assign label 1 to the `k`
top-ranked indices. -/
def specTieAscLabel (s : List ℚ) (p : ℚ) : List ℕ :=
  let n := s.length
  let k : ℕ := min (pythonRound ((n : ℚ) * per100 p)).toNat n
  let idx := (List.insertionSort (specRel s) (List.range n)).take k
  (List.range n).map (fun i => if i ∈ idx then 1 else 0)

/-- Written from the spec's words (claim C6, spec section 6) for comparison
with the source's `results_columns`: columns
`[split, model, configuration, train_size, feature_count, test_size,
baseline]` followed by the threshold-independent metrics followed by
`metric_name + "_" + level` (level outer, metric name inner). -/
def specResultColumns (eval_metrics levelMetrics : List String) (levels : List ℕ) :
    List String :=
  ["split", "model", "configuration", "train_size", "feature_count", "test_size",
    "baseline"] ++ eval_metrics ++
    levels.flatMap (fun level => levelMetrics.map (fun metric => metric ++ "_" ++ toString level))

/-- A concrete environment for exercising the loop: the registry holds a
`DT` entry preconfigured with `max_depth = 5` (as `classifiers` does at
pipeline.py line 576), fitting always succeeds with scores `[3, 1, 2]`, the
test labels are all 0, and no side-effect hook raises. -/
def envPlain : ClassifyEnv where
  registry0 := fun m => if m = "DT" then [("max_depth", 5)] else []
  fitScores := fun _ _ => .ok [3, 1, 2]
  y_test := [false, false, false]
  trainSize := 5
  numFeatures := 2
  testSize := 3
  baseline := 0
  popThreshold := 50
  histPlotFails := false
  predDumpFails := false
  prPlotFails := false
  biasPlotFails := false
  indepMetric := fun _ _ => PyFloat.val 0
  otherMetric := fun _ _ _ => .ok (PyFloat.val 0)

/-- `envPlain`, except that the scoring-histogram plot raises. -/
def envHistFail : ClassifyEnv := { envPlain with histPlotFails := true }

/-- `envPlain`, except that fitting raises exactly when hyperparameter `a`
is set to 1. -/
def envFitFail : ClassifyEnv :=
  { envPlain with
    fitScores := fun _ p =>
      if lookupParam p "a" = some 1 then .error .fitError else .ok [3, 1, 2] }

/-- The state after the one successful configuration of the C4 witness run. -/
def st4pre : RunState :=
  (runPairs envFitFail 2012 [] ["recall"] [] false false false (initState envFitFail)
    [("DT", [("a", 2)])]).1

/-- The state after the failing configuration of the C4 witness run. -/
def st4fail : RunState :=
  (classifyStep envFitFail 2012 [] ["recall"] [] false false false st4pre "DT"
    [("a", 1)]).1

/-! ### Basic properties of the ranking and of `pythonRound` -/

theorem pythonRound_nonneg {q : ℚ} (h : 0 ≤ q) : 0 ≤ pythonRound q := by
  unfold pythonRound
  have h0 : (0 : ℤ) ≤ ⌊q⌋ := Int.floor_nonneg.mpr h
  split_ifs <;> omega

theorem sortDescIdx_perm (s : List ℚ) : (sortDescIdx s).Perm (List.range s.length) :=
  (List.reverse_perm _).trans (List.perm_insertionSort _ _)

theorem sortDescIdx_nodup (s : List ℚ) : (sortDescIdx s).Nodup :=
  (sortDescIdx_perm s).nodup_iff.mpr (List.nodup_range _)

theorem sortDescIdx_length (s : List ℚ) : (sortDescIdx s).length = s.length := by
  simpa using (sortDescIdx_perm s).length_eq

theorem mem_sortDescIdx {s : List ℚ} {i : ℕ} : i ∈ sortDescIdx s ↔ i < s.length := by
  rw [(sortDescIdx_perm s).mem_iff, List.mem_range]

theorem count_one_indicator (n : ℕ) (idx : List ℕ) (h1 : idx.Nodup)
    (h2 : ∀ i ∈ idx, i < n) :
    ((List.range n).map (fun i => if i ∈ idx then 1 else 0)).count 1 = idx.length := by
  have hc : ((List.range n).map (fun i => if i ∈ idx then (1 : ℕ) else 0)).count 1
      = (List.range n).countP (fun i => decide (i ∈ idx)) := by
    rw [List.count_eq_countP, List.countP_map]
    refine List.countP_congr ?_
    intro x _
    by_cases hx : x ∈ idx <;> simp [hx]
  rw [hc, List.countP_eq_length_filter]
  have hperm : ((List.range n).filter (fun i => decide (i ∈ idx))).Perm idx := by
    rw [List.perm_ext_iff_of_nodup ((List.nodup_range n).filter _) h1]
    intro a
    simp only [List.mem_filter, List.mem_range, decide_eq_true_eq]
    exact ⟨fun h => h.2, fun h => ⟨h2 a h, h⟩⟩
  exact hperm.length_eq

/-- Claim C1: for every score vector `s` and percentage `p` (a percentage is
a nonnegative quantity; spec section 3 restricts it to `(0, 100]`),
`scores_pctpop` returns a {0,1} vector of the same length and order as `s`
containing exactly `round(n*p/100)` ones clamped to `[0, n]` (Python's
banker's rounding); `k = 0` gives all zeros, `k >= n` gives all ones, and
empty input gives empty output.  The input is not mutated: the source copies
it into a fresh Series and this embedding is pure. -/
theorem scores_pctpop_percentile_count (s : List ℚ) (p : ℚ) (hp : 0 ≤ p) :
    (scores_pctpop s p).length = s.length ∧
    (∀ x ∈ scores_pctpop s p, x = 0 ∨ x = 1) ∧
    (scores_pctpop s p).count 1
      = min (pythonRound ((s.length : ℚ) * per100 p)).toNat s.length ∧
    (pythonRound ((s.length : ℚ) * per100 p) = 0 → ∀ x ∈ scores_pctpop s p, x = 0) ∧
    ((s.length : ℤ) ≤ pythonRound ((s.length : ℚ) * per100 p) →
      ∀ x ∈ scores_pctpop s p, x = 1) ∧
    (s = [] → scores_pctpop s p = []) := by
  have hper : 0 ≤ per100 p := by
    unfold per100
    have h100 : (0 : ℚ) ≤ Rat.divInt 1 100 := by norm_num [Rat.divInt_eq_div]
    exact mul_nonneg hp h100
  have hk : 0 ≤ pythonRound ((s.length : ℚ) * per100 p) :=
    pythonRound_nonneg (mul_nonneg (Nat.cast_nonneg _) hper)
  have hunfold : scores_pctpop s p
      = (List.range s.length).map (fun i =>
          if i ∈ (sortDescIdx s).take
              (min (pythonRound ((s.length : ℚ) * per100 p)).toNat s.length)
            then 1 else 0) := by
    unfold scores_pctpop
    dsimp only
    rw [if_pos hk]
  refine ⟨?_, ?_, ?_, ?_, ?_, ?_⟩
  · rw [hunfold]; simp
  · rw [hunfold]
    intro x hx
    obtain ⟨i, _, hxi⟩ := List.mem_map.mp hx
    by_cases hi : i ∈ (sortDescIdx s).take
        (min (pythonRound ((s.length : ℚ) * per100 p)).toNat s.length)
    · right; rw [← hxi]; simp [hi]
    · left; rw [← hxi]; simp [hi]
  · rw [hunfold]
    rw [count_one_indicator s.length _
        (((List.take_sublist _ _).nodup (sortDescIdx_nodup s)))
        (fun i hi => mem_sortDescIdx.mp ((List.take_sublist _ _).subset hi))]
    rw [List.length_take, sortDescIdx_length]
    have := min_le_right (pythonRound ((s.length : ℚ) * per100 p)).toNat s.length
    omega
  · intro h0
    rw [hunfold]
    intro x hx
    obtain ⟨i, _, hxi⟩ := List.mem_map.mp hx
    rw [h0] at hxi
    simp at hxi
    omega
  · intro hn
    have htoNat : s.length ≤ (pythonRound ((s.length : ℚ) * per100 p)).toNat := by omega
    have hmin : min (pythonRound ((s.length : ℚ) * per100 p)).toNat s.length
        = s.length := by omega
    rw [hunfold, hmin]
    intro x hx
    obtain ⟨i, hi, hxi⟩ := List.mem_map.mp hx
    have hilt : i < s.length := List.mem_range.mp hi
    have hmem : i ∈ (sortDescIdx s).take s.length := by
      rw [← sortDescIdx_length s, List.take_length]
      exact mem_sortDescIdx.mpr hilt
    rw [← hxi, if_pos hmem]
  · intro he
    subst he
    rfl

/-- Witness for `scores_pctpop_percentile_count` at `s = [1, 2]`, `p = 50`. -/
theorem scores_pctpop_percentile_count_witness :
    (0 : ℚ) ≤ 50 ∧
    (scores_pctpop [1, 2] 50).count 1
      = min (pythonRound ((([1, 2] : List ℚ).length : ℚ) * per100 50)).toNat
          ([1, 2] : List ℚ).length :=
  ⟨by norm_num, (scores_pctpop_percentile_count [1, 2] 50 (by norm_num)).2.2.1⟩

/-! ### Congruence of the sort under order-preserving transforms (C9) -/

theorem orderedInsert_congr (r₁ r₂ : ℕ → ℕ → Prop) [DecidableRel r₁] [DecidableRel r₂]
    (a : ℕ) : ∀ l : List ℕ, (∀ b ∈ l, (r₁ a b ↔ r₂ a b)) →
      List.orderedInsert r₁ a l = List.orderedInsert r₂ a l
  | [], _ => rfl
  | b :: l, h => by
      by_cases hb : r₁ a b
      · rw [List.orderedInsert, List.orderedInsert, if_pos hb,
          if_pos ((h b (List.mem_cons_self b l)).mp hb)]
      · rw [List.orderedInsert, List.orderedInsert, if_neg hb,
          if_neg (fun hc => hb ((h b (List.mem_cons_self b l)).mpr hc)),
          orderedInsert_congr r₁ r₂ a l (fun c hc => h c (List.mem_cons_of_mem b hc))]

theorem insertionSort_congr (r₁ r₂ : ℕ → ℕ → Prop) [DecidableRel r₁] [DecidableRel r₂] :
    ∀ l : List ℕ, (∀ a ∈ l, ∀ b ∈ l, (r₁ a b ↔ r₂ a b)) →
      List.insertionSort r₁ l = List.insertionSort r₂ l
  | [], _ => rfl
  | a :: l, h => by
      rw [List.insertionSort, List.insertionSort,
        insertionSort_congr r₁ r₂ l
          (fun x hx y hy => h x (List.mem_cons_of_mem a hx) y (List.mem_cons_of_mem a hy))]
      exact orderedInsert_congr r₁ r₂ a _ (fun b hb =>
        h a (List.mem_cons_self a l) b
          (List.mem_cons_of_mem a ((List.perm_insertionSort r₂ l).mem_iff.mp hb)))

theorem scoreOf_map (f : ℚ → ℚ) (s : List ℚ) {i : ℕ} (hi : i < s.length) :
    scoreOf (s.map f) i = f (scoreOf s i) := by
  unfold scoreOf
  rw [List.getD_eq_getElem?_getD, List.getD_eq_getElem?_getD, List.getElem?_map,
    List.getElem?_eq_getElem hi]
  rfl

theorem argsortAsc_map (s : List ℚ) (f : ℚ → ℚ) (hf : StrictMono f) :
    argsortAsc (s.map f) = argsortAsc s := by
  unfold argsortAsc
  rw [List.length_map]
  exact insertionSort_congr _ _ (List.range s.length) (fun i hi j hj => by
    unfold ascRel
    rw [scoreOf_map f s (List.mem_range.mp hi), scoreOf_map f s (List.mem_range.mp hj)]
    exact hf.le_iff_le)

/-- Claim C9: the percentile labeler is invariant under any strictly
order-preserving transform of the scores — the sort is comparison-based, the
transform preserves every comparison (including ties, by injectivity), and
the count of positives depends only on the length. -/
theorem scores_pctpop_monotone_invariant (s : List ℚ) (p : ℚ) (f : ℚ → ℚ)
    (hf : StrictMono f) : scores_pctpop (s.map f) p = scores_pctpop s p := by
  unfold scores_pctpop sortDescIdx
  dsimp only
  rw [List.length_map, argsortAsc_map s f hf]

/-- Witness for `scores_pctpop_monotone_invariant` with `f x = 2 * x` at
`s = [1, 3, 2]`, `p = 50`. -/
theorem scores_pctpop_monotone_invariant_witness :
    StrictMono (fun x : ℚ => 2 * x) ∧
    scores_pctpop (([1, 3, 2] : List ℚ).map (fun x : ℚ => 2 * x)) 50
      = scores_pctpop [1, 3, 2] 50 :=
  ⟨fun a b h => by simpa using h,
    scores_pctpop_monotone_invariant [1, 3, 2] 50 _ (fun a b h => by simpa using h)⟩

/-! ### Stability of the sort and the actual tie-break direction (C2) -/

theorem pairwise_orderedInsert_tie (s : List ℚ) (a : ℕ) :
    ∀ M : List ℕ, M.Pairwise (tieAscRank s) → (∀ b ∈ M, a < b) →
      (List.orderedInsert (ascRel s) a M).Pairwise (tieAscRank s)
  | [], _, _ => by simp [List.orderedInsert]
  | b :: M, hM, ha => by
      rw [List.orderedInsert]
      by_cases hab : ascRel s a b
      · rw [if_pos hab]
        have hab' : scoreOf s a ≤ scoreOf s b := hab
        refine List.pairwise_cons.mpr ⟨?_, hM⟩
        intro c hc
        rcases List.mem_cons.mp hc with rfl | hcM
        · rcases lt_or_eq_of_le hab' with h | h
          · exact Or.inl h
          · exact Or.inr ⟨h, ha c (List.mem_cons_self c M)⟩
        · have hbc := (List.pairwise_cons.mp hM).1 c hcM
          have hac : scoreOf s a ≤ scoreOf s c := by
            rcases hbc with h | h
            · exact le_trans hab' (le_of_lt h)
            · exact le_trans hab' (le_of_eq h.1)
          rcases lt_or_eq_of_le hac with h | h
          · exact Or.inl h
          · exact Or.inr ⟨h, ha c (List.mem_cons_of_mem b hcM)⟩
      · rw [if_neg hab]
        have hba : scoreOf s b < scoreOf s a := lt_of_not_le hab
        refine List.pairwise_cons.mpr ⟨?_, ?_⟩
        · intro c hc
          rcases (List.mem_orderedInsert (ascRel s)).mp hc with rfl | hcM
          · exact Or.inl hba
          · exact (List.pairwise_cons.mp hM).1 c hcM
        · exact pairwise_orderedInsert_tie s a M (List.pairwise_cons.mp hM).2
            (fun c hc => ha c (List.mem_cons_of_mem b hc))

theorem pairwise_insertionSort_tie (s : List ℚ) :
    ∀ l : List ℕ, l.Pairwise (· < ·) →
      (List.insertionSort (ascRel s) l).Pairwise (tieAscRank s)
  | [], _ => List.Pairwise.nil
  | a :: l, h => by
      rw [List.insertionSort]
      refine pairwise_orderedInsert_tie s a _
        (pairwise_insertionSort_tie s l (List.pairwise_cons.mp h).2) ?_
      intro b hb
      exact (List.pairwise_cons.mp h).1 b ((List.perm_insertionSort _ l).mem_iff.mp hb)

theorem argsortAsc_pairwise (s : List ℚ) : (argsortAsc s).Pairwise (tieAscRank s) :=
  pairwise_insertionSort_tie s _ (List.pairwise_lt_range _)

/-- Claim C2 (amended): the ranking the labeler takes its top-`k` positions
from is sorted by score descending with ties broken by original index
DESCENDING — pandas computes a descending sort by reversing a stable
ascending argsort — and repeated calls with identical input produce the
identical label vector (the embedding, like the source, is deterministic:
no randomness enters the computation). -/
theorem scores_pctpop_tie_order_desc (s : List ℚ) (p : ℚ) :
    (sortDescIdx s).Pairwise (tieDescRank s) ∧ scores_pctpop s p = scores_pctpop s p := by
  constructor
  · unfold sortDescIdx
    exact List.pairwise_reverse.mpr (argsortAsc_pairwise s)
  · rfl

/-- Claim C2 as stated is false on the code: with tied scores `[5, 5]` and
`p = 50` the source labels position 1 — pandas reverses the stable ascending
argsort, so the tie breaks by original index descending — whereas the claimed
descending sort with tie-break by original index ascending labels
position 0. -/
theorem scores_pctpop_tie_order_counterexample :
    scores_pctpop [5, 5] 50 = [0, 1] ∧ specTieAscLabel [5, 5] 50 = [1, 0] ∧
      scores_pctpop [5, 5] 50 ≠ specTieAscLabel [5, 5] 50 := by
  have h1 : pythonRound ((([5, 5] : List ℚ).length : ℚ) * per100 50) = 1 := by
    norm_num [pythonRound, per100, Rat.divInt_eq_div]
  have hcode : scores_pctpop [5, 5] 50 = [0, 1] := by
    simp only [scores_pctpop, h1]
    norm_num [sortDescIdx, argsortAsc, ascRel, scoreOf, List.insertionSort,
      List.orderedInsert, List.range_succ]
  have hspec : specTieAscLabel [5, 5] 50 = [1, 0] := by
    simp only [specTieAscLabel, h1]
    norm_num [specRel, scoreOf, List.insertionSort, List.orderedInsert, List.range_succ]
  exact ⟨hcode, hspec, by rw [hcode, hspec]; decide⟩

/-! ### The flooring threshold path `pred_at_level` (C8) -/

theorem per100_eq (x : ℚ) : per100 x = x / 100 := by
  unfold per100
  rw [Rat.divInt_eq_div]
  push_cast
  ring

theorem per100_nonneg {x : ℚ} (h : 0 ≤ x) : 0 ≤ per100 x := by
  unfold per100
  have h100 : (0 : ℚ) ≤ Rat.divInt 1 100 := by norm_num [Rat.divInt_eq_div]
  exact mul_nonneg h h100

theorem pythonIntTrunc_eq_floor {q : ℚ} (h : 0 ≤ q) : pythonIntTrunc q = ⌊q⌋ := if_pos h

/-- Claim C8: `pred_at_level` sorts scores descending and labels exactly the
first `cutoff_index = floor(len(scores) * level/100)` positions of the sorted
order 1 and the rest 0 (for a nonnegative level, Python's `int()` truncation
is the floor) — a flooring semantics, distinct from the round-to-nearest
semantics of `scores_pctpop`, e.g. at `n = 3`, `level = 50` the floor cutoff
is 1 while the banker's rounding count is 2. -/
theorem pred_at_level_floor_cutoff (y_true y_scores : List ℚ) (level : ℚ)
    (h : 0 ≤ level) :
    (pred_at_level y_true y_scores level).2
      = (List.range y_scores.length).map
          (fun x => if (x : ℤ) < ⌊(y_scores.length : ℚ) * per100 level⌋ then 1 else 0) ∧
    pythonIntTrunc ((3 : ℚ) * per100 50) = 1 ∧
    pythonRound ((3 : ℚ) * per100 50) = 2 := by
  refine ⟨?_, ?_, ?_⟩
  · unfold pred_at_level
    dsimp only
    rw [pythonIntTrunc_eq_floor (mul_nonneg (Nat.cast_nonneg _) (per100_nonneg h))]
  · norm_num [pythonIntTrunc, per100, Rat.divInt_eq_div]
  · norm_num [pythonRound, per100, Rat.divInt_eq_div]

/-- Witness for `pred_at_level_floor_cutoff` at `y_scores = [3, 1]`,
`level = 50`. -/
theorem pred_at_level_floor_cutoff_witness :
    (0 : ℚ) ≤ 50 ∧
    (pred_at_level [1, 0] [3, 1] 50).2
      = (List.range ([3, 1] : List ℚ).length).map
          (fun x => if (x : ℤ) < ⌊(([3, 1] : List ℚ).length : ℚ) * per100 50⌋ then 1
            else 0) :=
  ⟨by norm_num, (pred_at_level_floor_cutoff [1, 0] [3, 1] 50 (by norm_num)).1⟩

/-! ### Error behaviour of the metric functions (C3) -/

/-- Claim C3 (amended): on a length mismatch every metric function raises a
plain `ValueError` from sklearn's input validation (the code defines no
`InvalidInputError`); when both classes are present and a confusion-matrix
denominator is zero, `recall`/`precision` return the numpy sentinel `nan`
without raising a division exception (the code defines no
`DegenerateMetricError`); but a single-class input crashes
`recall`/`precision`/`accuracy` with a `ValueError` from the 4-way unpacking
of a 1x1 confusion matrix, while `f1` returns a plain value. -/
theorem metrics_error_behavior (yt yp : List Bool) :
    (yt.length ≠ yp.length →
      recall_at_threshold yt yp = Except.error PyErr.valueErrorLengthMismatch ∧
      precision_at_threshold yt yp = Except.error PyErr.valueErrorLengthMismatch ∧
      accuracy_at_threshold yt yp = Except.error PyErr.valueErrorLengthMismatch ∧
      f1_at_threshold yt yp = Except.error PyErr.valueErrorLengthMismatch) ∧
    (yt.length = yp.length → twoClasses yt yp = false →
      recall_at_threshold yt yp = Except.error PyErr.valueErrorUnpack ∧
      precision_at_threshold yt yp = Except.error PyErr.valueErrorUnpack ∧
      accuracy_at_threshold yt yp = Except.error PyErr.valueErrorUnpack ∧
      (∃ q, f1_at_threshold yt yp = Except.ok (PyFloat.val q))) ∧
    (yt.length = yp.length → twoClasses yt yp = true →
      countTP yt yp + countFN yt yp = 0 →
      recall_at_threshold yt yp = Except.ok PyFloat.nan) ∧
    (yt.length = yp.length → twoClasses yt yp = true →
      countTP yt yp + countFP yt yp = 0 →
      precision_at_threshold yt yp = Except.ok PyFloat.nan) := by
  refine ⟨?_, ?_, ?_, ?_⟩
  · intro h
    have hc : confusionRavel yt yp = .error .valueErrorLengthMismatch := by
      unfold confusionRavel
      rw [if_pos h]
    refine ⟨?_, ?_, ?_, ?_⟩
    · simp [recall_at_threshold, hc]
    · simp [precision_at_threshold, hc]
    · simp [accuracy_at_threshold, hc]
    · unfold f1_at_threshold
      rw [if_pos h]
  · intro h hf
    have hc : confusionRavel yt yp = .error .valueErrorUnpack := by
      unfold confusionRavel
      rw [if_neg (fun hne => hne h), if_pos hf]
    refine ⟨by simp [recall_at_threshold, hc], by simp [precision_at_threshold, hc],
      by simp [accuracy_at_threshold, hc], ?_⟩
    unfold f1_at_threshold
    rw [if_neg (fun hne => hne h)]
    dsimp only
    by_cases h0 : 2 * countTP yt yp + countFP yt yp + countFN yt yp = 0
    · exact ⟨0, by rw [if_pos h0]⟩
    · exact ⟨_, by rw [if_neg h0]⟩
  · intro h ht h0
    have h1 : countTP yt yp = 0 := by omega
    have h2 : countFN yt yp = 0 := by omega
    have hc : confusionRavel yt yp
        = .ok (countTN yt yp, countFP yt yp, countFN yt yp, countTP yt yp) := by
      unfold confusionRavel
      rw [if_neg (fun hne => hne h), if_neg (by simp [ht])]
    simp only [recall_at_threshold, hc, h1, h2]
    norm_num [npDiv]
  · intro h ht h0
    have h1 : countTP yt yp = 0 := by omega
    have h2 : countFP yt yp = 0 := by omega
    have hc : confusionRavel yt yp
        = .ok (countTN yt yp, countFP yt yp, countFN yt yp, countTP yt yp) := by
      unfold confusionRavel
      rw [if_neg (fun hne => hne h), if_neg (by simp [ht])]
    simp only [precision_at_threshold, hc, h1, h2]
    norm_num [npDiv]

/-- Witness for `metrics_error_behavior` at the length-mismatch input
`y_true = [0]`, `y_pred = [0, 1]`. -/
theorem metrics_error_behavior_witness :
    ([false] : List Bool).length ≠ ([false, true] : List Bool).length ∧
    (recall_at_threshold [false] [false, true]
        = Except.error PyErr.valueErrorLengthMismatch ∧
      precision_at_threshold [false] [false, true]
        = Except.error PyErr.valueErrorLengthMismatch ∧
      accuracy_at_threshold [false] [false, true]
        = Except.error PyErr.valueErrorLengthMismatch ∧
      f1_at_threshold [false] [false, true]
        = Except.error PyErr.valueErrorLengthMismatch) :=
  ⟨by decide, (metrics_error_behavior [false] [false, true]).1 (by decide)⟩

/-- Claim C3 as stated is false on the code: on the single-class input
`y_true = y_pred = [0, 0]` (a case the claim explicitly assigns to
`DegenerateMetricError` signalling) the confusion-matrix metrics crash with a
`ValueError` from unpacking a 1x1 matrix into four values; and on
`y_true = [0, 0]`, `y_pred = [0, 1]` (no actual positives) recall returns the
numpy sentinel `nan` — no `DegenerateMetricError` exists anywhere in the
code. -/
theorem metrics_single_class_crash :
    recall_at_threshold [false, false] [false, false]
        = Except.error PyErr.valueErrorUnpack ∧
    precision_at_threshold [false, false] [false, false]
        = Except.error PyErr.valueErrorUnpack ∧
    accuracy_at_threshold [false, false] [false, false]
        = Except.error PyErr.valueErrorUnpack ∧
    recall_at_threshold [false, false] [false, true] = Except.ok PyFloat.nan := by
  refine ⟨rfl, rfl, rfl, ?_⟩
  have hc : confusionRavel [false, false] [false, true] = .ok (1, 1, 0, 0) := rfl
  simp only [recall_at_threshold, hc]
  norm_num [npDiv]

/-! ### The row write lives inside the level-metrics branch (C10) -/

theorem classifyStep_no_level_rows (env : ClassifyEnv) (year : ℕ) (em : List String)
    (levels : List ℕ) (ppr cb sp : Bool) (st : RunState) (m : String) (p : Params) :
    ((classifyStep env year em [] levels ppr cb sp st m p).1).fileRows = st.fileRows := by
  unfold classifyStep
  dsimp only
  split
  · rfl
  · split
    · rfl
    · rfl

/-- Claim C10: when the list of threshold-dependent metrics
(`eval_metrics_by_level[0]`) is empty, no data row is ever appended — the
results file holds exactly the header — because the
`with open(outfile, "a")` row write is indented under the
`if eval_metrics_by_level[0]:` branch (pipeline.py lines 711-719); this holds
whatever threshold-independent metrics were requested. -/
theorem classify_no_rows_when_no_level_metrics (env : ClassifyEnv) (year : ℕ)
    (models : List String) (custom_grid : String → List Params)
    (eval_metrics levelMetrics : List String) (levels : List ℕ)
    (plot_pr compute_bias save_pred : Bool) (hlm : levelMetrics = []) :
    (classifyFile env year models custom_grid eval_metrics levelMetrics levels
        plot_pr compute_bias save_pred).1
      = [(results_columns eval_metrics levelMetrics levels).map Cell.s] := by
  subst hlm
  have key : ∀ (pairs : List (String × Params)) (st : RunState),
      ((runPairs env year eval_metrics [] levels plot_pr compute_bias save_pred st
          pairs).1).fileRows = st.fileRows := by
    intro pairs
    induction pairs with
    | nil => intro st; rfl
    | cons hd tl ih =>
      intro st
      obtain ⟨m, p⟩ := hd
      have hrows := classifyStep_no_level_rows env year eval_metrics levels plot_pr
        compute_bias save_pred st m p
      unfold runPairs
      cases hstep : classifyStep env year eval_metrics [] levels plot_pr compute_bias
          save_pred st m p with
      | mk st' err =>
        rw [hstep] at hrows
        cases err with
        | none =>
          dsimp only
          rw [ih st']
          simpa using hrows
        | some e =>
          dsimp only
          simpa using hrows
  unfold classifyFile
  dsimp only
  rw [key (gridPairs models custom_grid) (initState env)]
  rfl

/-- Witness for `classify_no_rows_when_no_level_metrics` on a concrete
one-model run with only a threshold-independent metric requested. -/
theorem classify_no_rows_when_no_level_metrics_witness :
    (([] : List String) = []) ∧
    (classifyFile envPlain 2012 ["DT"] (fun _ => [[("max_depth", 3)]]) ["auc"] [] [50]
        false false false).1
      = [(results_columns ["auc"] [] [50]).map Cell.s] :=
  ⟨rfl, classify_no_rows_when_no_level_metrics envPlain 2012 ["DT"] _ ["auc"] [] [50]
      false false false rfl⟩

/-! ### A fit failure ends the run; prior rows survive (C4) -/

theorem classifyStep_fileRows_extend (env : ClassifyEnv) (year : ℕ)
    (em lm : List String) (levels : List ℕ) (ppr cb sp : Bool) (st : RunState)
    (m : String) (p : Params) :
    ∃ t, ((classifyStep env year em lm levels ppr cb sp st m p).1).fileRows
      = st.fileRows ++ t := by
  unfold classifyStep
  dsimp only
  split
  · exact ⟨[], (List.append_nil _).symm⟩
  · split
    · exact ⟨[], (List.append_nil _).symm⟩
    · split
      · exact ⟨[], (List.append_nil _).symm⟩
      · split
        · exact ⟨[], (List.append_nil _).symm⟩
        · exact ⟨_, rfl⟩

/-- Claim C4 (amended): `classify` has no `try`/`except`, so the first fit
failure is returned and the remaining configurations are NOT processed; the
rows already appended for configurations completed before the failure remain
in the file (each row write opens and closes the file). -/
theorem classify_fit_failure_stops_loop (env : ClassifyEnv) (year : ℕ)
    (em lm : List String) (levels : List ℕ) (ppr cb sp : Bool) :
    ∀ (pre : List (String × Params)) (st st' st'' : RunState) (m : String) (p : Params)
      (post : List (String × Params)) (e : PyErr),
      runPairs env year em lm levels ppr cb sp st pre = (st', none) →
      classifyStep env year em lm levels ppr cb sp st' m p = (st'', some e) →
      runPairs env year em lm levels ppr cb sp st (pre ++ (m, p) :: post)
          = (st'', some e) ∧
        ∃ t, st''.fileRows = st.fileRows ++ t := by
  intro pre
  induction pre with
  | nil =>
    intro st st' st'' m p post e h1 h2
    unfold runPairs at h1
    injection h1 with ha _
    subst ha
    constructor
    · rw [List.nil_append]
      unfold runPairs
      rw [h2]
    · obtain ⟨t0, ht0⟩ := classifyStep_fileRows_extend env year em lm levels ppr cb sp
        st m p
      rw [h2] at ht0
      exact ⟨t0, ht0⟩
  | cons hd tl ih =>
    intro st st' st'' m p post e h1 h2
    obtain ⟨m₀, p₀⟩ := hd
    unfold runPairs at h1
    rw [List.cons_append]
    unfold runPairs
    cases hstep : classifyStep env year em lm levels ppr cb sp st m₀ p₀ with
    | mk st₀ err₀ =>
      rw [hstep] at h1
      cases err₀ with
      | some e₀ =>
        dsimp only at h1
        exact absurd (congrArg Prod.snd h1) (by simp)
      | none =>
        dsimp only at h1
        dsimp only
        obtain ⟨hrun, t1, ht1⟩ := ih st₀ st' st'' m p post e h1 h2
        refine ⟨hrun, ?_⟩
        obtain ⟨t0, ht0⟩ := classifyStep_fileRows_extend env year em lm levels ppr cb sp
          st m₀ p₀
        rw [hstep] at ht0
        dsimp only at ht0
        exact ⟨t0 ++ t1, by rw [ht1, ht0, List.append_assoc]⟩

/-- Witness for `classify_fit_failure_stops_loop`: one successful
configuration, then one whose fit raises, then one more that is never
reached. -/
theorem classify_fit_failure_stops_loop_witness :
    runPairs envFitFail 2012 [] ["recall"] [] false false false (initState envFitFail)
        [("DT", [("a", 2)])] = (st4pre, none) ∧
    classifyStep envFitFail 2012 [] ["recall"] [] false false false st4pre "DT"
        [("a", 1)] = (st4fail, some PyErr.fitError) ∧
    (runPairs envFitFail 2012 [] ["recall"] [] false false false (initState envFitFail)
        ([("DT", [("a", 2)])] ++ ("DT", [("a", 1)]) :: [("DT", [("a", 3)])])
        = (st4fail, some PyErr.fitError) ∧
      ∃ t, st4fail.fileRows = (initState envFitFail).fileRows ++ t) :=
  ⟨rfl, rfl,
    classify_fit_failure_stops_loop envFitFail 2012 [] ["recall"] [] false false false
      [("DT", [("a", 2)])] (initState envFitFail) st4pre st4fail "DT" [("a", 1)]
      [("DT", [("a", 3)])] PyErr.fitError rfl rfl⟩

/-- Claim C4 as stated is false on the code: with a grid of two
configurations where fitting the FIRST raises, the run ends with that
exception and no row is ever written for the second (still valid)
configuration — the loop does not continue past a failure. -/
theorem classify_fit_failure_aborts :
    (runPairs envFitFail 2012 [] ["recall"] [50] false false false
        (initState envFitFail) [("DT", [("a", 1)]), ("DT", [("a", 2)])]).2
      = some PyErr.fitError ∧
    ((runPairs envFitFail 2012 [] ["recall"] [50] false false false
        (initState envFitFail) [("DT", [("a", 1)]), ("DT", [("a", 2)])]).1).fileRows
      = [] := by
  constructor
  · rfl
  · rfl

/-! ### The shared classifier registry and `set_params` mutation (C5) -/

theorem lookupParam_setParam (b : Params) (k k' : String) (v : ℚ) :
    lookupParam (setParam b k v) k' = if k' = k then some v else lookupParam b k' := by
  induction b with
  | nil =>
    show lookupParam [(k, v)] k' = if k' = k then some v else lookupParam [] k'
    unfold lookupParam
    by_cases h : k = k'
    · rw [if_pos h, if_pos h.symm]
    · rw [if_neg h, if_neg (fun hh => h hh.symm)]
      rfl
  | cons hd rest ih =>
    obtain ⟨k₀, v₀⟩ := hd
    unfold setParam
    by_cases h0 : k₀ = k
    · subst h0
      rw [if_pos rfl]
      unfold lookupParam
      by_cases h : k₀ = k'
      · rw [if_pos h, if_pos h.symm]
      · rw [if_neg h, if_neg (fun hh => h hh.symm), if_neg h]
    · rw [if_neg h0]
      unfold lookupParam
      rw [ih]
      split_ifs with h1 h2 <;> try rfl
      exact absurd (h1.trans h2) h0

theorem lookupParam_setParams_not_mem : ∀ (c b : Params) (k : String),
    (∀ v, (k, v) ∉ c) → lookupParam (setParams b c) k = lookupParam b k := by
  intro c
  induction c with
  | nil => intro b k _; rfl
  | cons hd rest ih =>
    intro b k hk
    obtain ⟨k₀, v₀⟩ := hd
    have hne : k ≠ k₀ := by
      intro h
      exact hk v₀ (by rw [h]; exact List.mem_cons_self _ _)
    show lookupParam (setParams (setParam b k₀ v₀) rest) k = lookupParam b k
    rw [ih (setParam b k₀ v₀) k (fun v hv => hk v (List.mem_cons_of_mem _ hv)),
      lookupParam_setParam, if_neg hne]

theorem lookupParam_setParams_covered : ∀ (c b b' : Params) (k : String),
    (∃ v, (k, v) ∈ c) →
    lookupParam (setParams b c) k = lookupParam (setParams b' c) k := by
  intro c
  induction c with
  | nil =>
    intro b b' k hex
    obtain ⟨v, hv⟩ := hex
    exact absurd hv (List.not_mem_nil _)
  | cons hd rest ih =>
    intro b b' k hex
    obtain ⟨k₀, v₀⟩ := hd
    show lookupParam (setParams (setParam b k₀ v₀) rest) k
        = lookupParam (setParams (setParam b' k₀ v₀) rest) k
    by_cases hr : ∃ v, (k, v) ∈ rest
    · exact ih (setParam b k₀ v₀) (setParam b' k₀ v₀) k hr
    · have hnotin : ∀ v, (k, v) ∉ rest := fun v hv => hr ⟨v, hv⟩
      have hk : k = k₀ := by
        obtain ⟨v, hv⟩ := hex
        rcases List.mem_cons.mp hv with h | h
        · simpa using congrArg Prod.fst h
        · exact absurd h (hnotin v)
      rw [lookupParam_setParams_not_mem rest _ k hnotin,
        lookupParam_setParams_not_mem rest _ k hnotin,
        lookupParam_setParam, lookupParam_setParam, if_pos hk, if_pos hk]

/-- Claim C5 (amended): the loop reuses the single shared registry instance
per model, mutated in place by `set_params` — so it is NOT an independently
created instance — but when every parameter key of an earlier configuration
is also set by the current configuration (which holds within one
`ParameterGrid`, where all configurations share the same key set, and `fit`
fully retrains), the parameters in effect for the current configuration are
exactly those obtained from the pristine instance: no setting of the earlier
configuration remains observable in the fitted parameters. -/
theorem classify_same_keys_params_independent (b c1 c2 : Params) (k : String)
    (hcov : ∀ k' v, (k', v) ∈ c1 → ∃ v', (k', v') ∈ c2) :
    lookupParam (setParams (setParams b c1) c2) k
      = lookupParam (setParams b c2) k := by
  by_cases h2 : ∃ v, (k, v) ∈ c2
  · exact lookupParam_setParams_covered c2 (setParams b c1) b k h2
  · have hn2 : ∀ v, (k, v) ∉ c2 := fun v hv => h2 ⟨v, hv⟩
    have hn1 : ∀ v, (k, v) ∉ c1 := fun v hv => h2 (hcov k v hv)
    rw [lookupParam_setParams_not_mem c2 _ k hn2,
      lookupParam_setParams_not_mem c2 _ k hn2,
      lookupParam_setParams_not_mem c1 _ k hn1]

/-- Witness for `classify_same_keys_params_independent` with the registry's
`DT` entry (`max_depth = 5`) and two grid configurations setting the same
key. -/
theorem classify_same_keys_params_independent_witness :
    (∀ k' v, (k', v) ∈ ([("max_depth", 3)] : Params) →
      ∃ v', (k', v') ∈ ([("max_depth", 7)] : Params)) ∧
    lookupParam (setParams (setParams [("max_depth", 5)] [("max_depth", 3)])
        [("max_depth", 7)]) "max_depth"
      = lookupParam (setParams [("max_depth", 5)] [("max_depth", 7)]) "max_depth" :=
  ⟨fun k' v h => by
      simp only [List.mem_singleton, Prod.mk.injEq] at h
      exact ⟨7, by simp [h.1]⟩,
    classify_same_keys_params_independent [("max_depth", 5)] [("max_depth", 3)]
      [("max_depth", 7)] "max_depth"
      (fun k' v h => by
        simp only [List.mem_singleton, Prod.mk.injEq] at h
        exact ⟨7, by simp [h.1]⟩)⟩

/-- Claim C5 as stated is false on the code: `classifiers` is a module-level
dict of instances and `set_params` mutates the stored object in place, so
when the second configuration's iteration begins, `classifiers['DT']` — the
very instance it retrieves and fits — still carries `max_depth = 3` set by
the first configuration, not the pristine `max_depth = 5`: state from one
configuration is observable while evaluating the other. -/
theorem classify_shared_instance_observable :
    ((runPairs envPlain 2012 [] [] [] false false false (initState envPlain)
        [("DT", [("max_depth", 3)]), ("DT", [("max_depth", 7)])]).1).retrievedLog
      = [[("max_depth", 5)], [("max_depth", 3)]] ∧
    envPlain.registry0 "DT" = [("max_depth", 5)] ∧
    ([("max_depth", 3)] : Params) ≠ [("max_depth", 5)] := by
  refine ⟨rfl, rfl, ?_⟩
  simp

/-! ### Header and row shape of the persisted result file (C6) -/

theorem evalLevelMetrics_length (env : ClassifyEnv) (yp : List ℕ) :
    ∀ (lm : List String) (cells : List Cell),
      evalLevelMetrics env yp lm = .ok cells → cells.length = lm.length := by
  intro lm
  induction lm with
  | nil =>
    intro cells h
    injection h with h'
    rw [← h']
    rfl
  | cons m rest ih =>
    intro cells h
    unfold evalLevelMetrics at h
    cases hm : metricAtLevel env m env.y_test yp with
    | error e => rw [hm] at h; exact Except.noConfusion h
    | ok v =>
      rw [hm] at h
      dsimp only at h
      cases hr : evalLevelMetrics env yp rest with
      | error e => rw [hr] at h; exact Except.noConfusion h
      | ok vs =>
        rw [hr] at h
        dsimp only at h
        injection h with h'
        rw [← h']
        simp [ih vs hr]

theorem levelsCells_length (env : ClassifyEnv) (scores : List ℚ) (lm : List String) :
    ∀ (levels : List ℕ) (cells : List Cell),
      levelsCells env scores lm levels = .ok cells →
      cells.length = levels.length * lm.length := by
  intro levels
  induction levels with
  | nil =>
    intro cells h
    injection h with h'
    rw [← h']
    simp
  | cons level rest ih =>
    intro cells h
    unfold levelsCells at h
    cases hm : evalLevelMetrics env (scores_pctpop scores (level : ℚ)) lm with
    | error e => rw [hm] at h; exact Except.noConfusion h
    | ok cells1 =>
      rw [hm] at h
      dsimp only at h
      cases hr : levelsCells env scores lm rest with
      | error e => rw [hr] at h; exact Except.noConfusion h
      | ok more =>
        rw [hr] at h
        dsimp only at h
        injection h with h'
        rw [← h', List.length_append, evalLevelMetrics_length env _ lm cells1 hm,
          ih more hr]
        simp only [List.length_cons]
        ring

theorem levelCols_length (lm : List String) :
    ∀ levels : List ℕ,
      (levels.flatMap
          (fun level => lm.map (fun metric => metric ++ "_" ++ toString level))).length
        = levels.length * lm.length := by
  intro levels
  induction levels with
  | nil => simp
  | cons l rest ih =>
    rw [List.flatMap_cons, List.length_append, List.length_map, ih]
    simp only [List.length_cons]
    ring

theorem results_columns_length (em lm : List String) (levels : List ℕ) :
    (results_columns em lm levels).length
      = 8 + em.length + levels.length * lm.length := by
  unfold results_columns
  rw [List.length_append, List.length_append, levelCols_length]
  rfl

theorem ite_row1_length (em : List String) (c1 c2 c3 c4 c5 c6 c7 c8 : Cell)
    (f : String → Cell) :
    (if em.isEmpty then [c1, c2, c3, c4, c5, c6, c7, c8]
      else [c1, c2, c3, c4, c5, c6, c7, c8] ++ em.map f).length = 8 + em.length := by
  by_cases hem : em.isEmpty
  · rw [if_pos hem]
    have he : em = [] := by
      cases em with
      | nil => rfl
      | cons a l => exact absurd hem (by simp)
    subst he
    rfl
  · rw [if_neg hem, List.length_append, List.length_map]
    rfl

theorem classifyStep_row_shape (env : ClassifyEnv) (year : ℕ) (em lm : List String)
    (levels : List ℕ) (ppr cb sp : Bool) (st : RunState) (m : String) (p : Params) :
    ((classifyStep env year em lm levels ppr cb sp st m p).1).fileRows = st.fileRows ∨
    ∃ row, ((classifyStep env year em lm levels ppr cb sp st m p).1).fileRows
        = st.fileRows ++ [row] ∧
      row.length = (results_columns em lm levels).length := by
  unfold classifyStep
  dsimp only
  split
  · exact Or.inl rfl
  · split
    · exact Or.inl rfl
    · split
      · exact Or.inl rfl
      · split
        · exact Or.inl rfl
        · next cells hcells =>
          refine Or.inr ⟨_, rfl, ?_⟩
          rw [List.length_append, results_columns_length,
            levelsCells_length env _ lm levels cells hcells, ite_row1_length]

theorem runPairs_rows_length (env : ClassifyEnv) (year : ℕ) (em lm : List String)
    (levels : List ℕ) (ppr cb sp : Bool) :
    ∀ (pairs : List (String × Params)) (st : RunState),
      (∀ r ∈ st.fileRows, r.length = (results_columns em lm levels).length) →
      ∀ r ∈ ((runPairs env year em lm levels ppr cb sp st pairs).1).fileRows,
        r.length = (results_columns em lm levels).length := by
  intro pairs
  induction pairs with
  | nil => intro st hst; exact hst
  | cons hd tl ih =>
    intro st hst
    obtain ⟨m, p⟩ := hd
    have hshape := classifyStep_row_shape env year em lm levels ppr cb sp st m p
    unfold runPairs
    cases hstep : classifyStep env year em lm levels ppr cb sp st m p with
    | mk st' err =>
      rw [hstep] at hshape
      have hst' : ∀ r ∈ st'.fileRows,
          r.length = (results_columns em lm levels).length := by
        rcases hshape with h | ⟨row, hrow, hlen⟩
        · intro r hr
          rw [show st'.fileRows = st.fileRows from h] at hr
          exact hst r hr
        · intro r hr
          rw [show st'.fileRows = st.fileRows ++ [row] from hrow] at hr
          rcases List.mem_append.mp hr with h' | h'
          · exact hst r h'
          · rw [List.mem_singleton.mp h']
            exact hlen
      cases err with
      | none => dsimp only; exact ih st' hst'
      | some e => dsimp only; exact hst'

theorem classifyStep_appends_row (env : ClassifyEnv) (year : ℕ) (em lm : List String)
    (levels : List ℕ) (ppr cb sp : Bool) (st : RunState) (m : String) (p : Params)
    (st' : RunState)
    (hstep : classifyStep env year em lm levels ppr cb sp st m p = (st', none))
    (hlm : lm ≠ []) :
    ∃ row, st'.fileRows = st.fileRows ++ [row] ∧
      row.length = (results_columns em lm levels).length := by
  unfold classifyStep at hstep
  dsimp only at hstep
  split at hstep
  · exact absurd (congrArg Prod.snd hstep) (by simp)
  · split at hstep
    · exact absurd (congrArg Prod.snd hstep) (by simp)
    · split at hstep
      · next hempty => exact absurd (by simpa using hempty) hlm
      · split at hstep
        · exact absurd (congrArg Prod.snd hstep) (by simp)
        · next cells hcells =>
          have hfst := congrArg Prod.fst hstep
          dsimp only at hfst
          subst hfst
          refine ⟨_, rfl, ?_⟩
          rw [List.length_append, results_columns_length,
            levelsCells_length env _ lm levels cells hcells, ite_row1_length]

/-- Claim C6 (amended): the header — written exactly once, before any data
row — is `[year, model, classifiers, parameters, train_set_size,
num_features, validation_set_size, baseline]` (EIGHT leading columns: the
serialized classifier object AND the configuration dict each get a column)
followed by the threshold-independent metrics followed by
`metric + "_" + str(level)` with level outer and metric inner; every data row
has exactly that many cells and is appended (one per configuration, in
completion order) by the iteration that completed it, provided the
level-metric list is nonempty. -/
theorem classify_header_and_row_shape (env : ClassifyEnv) (year : ℕ)
    (models : List String) (custom_grid : String → List Params)
    (em lm : List String) (levels : List ℕ) (ppr cb sp : Bool) :
    (classifyFile env year models custom_grid em lm levels ppr cb sp).1.head?
        = some ((results_columns em lm levels).map Cell.s) ∧
    (∀ r ∈ (classifyFile env year models custom_grid em lm levels ppr cb sp).1.tail,
      r.length = (results_columns em lm levels).length) ∧
    (∀ (st : RunState) (m : String) (p : Params) (st' : RunState),
      classifyStep env year em lm levels ppr cb sp st m p = (st', none) → lm ≠ [] →
      ∃ row, st'.fileRows = st.fileRows ++ [row] ∧
        row.length = (results_columns em lm levels).length) := by
  refine ⟨rfl, ?_, ?_⟩
  · intro r hr
    exact runPairs_rows_length env year em lm levels ppr cb sp
      (gridPairs models custom_grid) (initState env) (fun r hr => absurd hr
        (List.not_mem_nil r)) r hr
  · intro st m p st' hstep hlm
    exact classifyStep_appends_row env year em lm levels ppr cb sp st m p st' hstep hlm

/-- Witness for `classify_header_and_row_shape` on a concrete one-model,
one-configuration run (one threshold-dependent metric, no levels). -/
theorem classify_header_and_row_shape_witness :
    (classifyFile envPlain 2012 ["DT"] (fun _ => [[("max_depth", 3)]]) [] ["recall"] []
        false false false).1.head?
      = some ((results_columns [] ["recall"] []).map Cell.s) ∧
    [Cell.n 2012, Cell.s "DT", Cell.ps [("max_depth", 3)], Cell.ps [("max_depth", 3)],
        Cell.n 5, Cell.n 2, Cell.n 3, Cell.q 0]
      ∈ (classifyFile envPlain 2012 ["DT"] (fun _ => [[("max_depth", 3)]]) [] ["recall"]
          [] false false false).1.tail ∧
    ([Cell.n 2012, Cell.s "DT", Cell.ps [("max_depth", 3)], Cell.ps [("max_depth", 3)],
        Cell.n 5, Cell.n 2, Cell.n 3, Cell.q 0] : List Cell).length
      = (results_columns [] ["recall"] []).length := by
  refine ⟨(classify_header_and_row_shape envPlain 2012 ["DT"] (fun _ => [[("max_depth", 3)]])
      [] ["recall"] [] false false false).1, ?_, ?_⟩
  · decide
  · exact (classify_header_and_row_shape envPlain 2012 ["DT"]
      (fun _ => [[("max_depth", 3)]]) [] ["recall"] [] false false false).2.1 _ (by decide)

/-- Claim C6 as stated is false on the code: the header has EIGHT leading
columns, `['year', 'model', 'classifiers', 'parameters', ...]` — both the
serialized classifier object and the configuration dict get a column —
whereas the claim lists only seven (one `configuration` slot, no
classifier-object column). -/
theorem results_columns_extra_classifier_col :
    results_columns [] [] [] = ["year", "model", "classifiers", "parameters",
      "train_set_size", "num_features", "validation_set_size", "baseline"] ∧
    specResultColumns [] [] [] = ["split", "model", "configuration", "train_size",
      "feature_count", "test_size", "baseline"] ∧
    (results_columns [] [] []).length = 8 ∧
    (specResultColumns [] [] []).length = 7 ∧
    (results_columns [] [] []).length ≠ (specResultColumns [] [] []).length := by
  refine ⟨rfl, rfl, rfl, rfl, by decide⟩

/-! ### Hook invocation and hook-failure propagation (C7) -/

theorem hooksPhase_no_failures (env : ClassifyEnv) (ppr cb sp : Bool)
    (prediction : List ℕ) (h1 : env.histPlotFails = false)
    (h2 : env.predDumpFails = false) (h3 : env.prPlotFails = false)
    (h4 : env.biasPlotFails = false)
    (hrec : ppr = true → ∃ v, recall_at_threshold env.y_test (boolLabels prediction)
      = Except.ok v) :
    hooksPhase env ppr cb sp prediction = (expectedHooks ppr cb sp, none) := by
  cases ppr with
  | false =>
    cases cb <;> cases sp <;>
      simp [hooksPhase, expectedHooks, h1, h2, h3, h4]
  | true =>
    obtain ⟨v, hv⟩ := hrec rfl
    cases cb <;> cases sp <;>
      simp [hooksPhase, expectedHooks, h1, h2, h3, h4, hv]

/-- Claim C7 (amended): with fit succeeding and no hook raising, one
iteration invokes the scoring-histogram plot UNCONDITIONALLY and the
raw-prediction dump, precision/recall plot and bias plot exactly when their
flags request them (in that order); if fit fails no hook runs; and if the
histogram plot raises, the exception propagates out of the iteration — the
metric computation is never reached and no row is written.  There is no
logging-and-swallowing anywhere. -/
theorem classify_hook_invocation (env : ClassifyEnv) (year : ℕ) (em lm : List String)
    (levels : List ℕ) (ppr cb sp : Bool) (st : RunState) (m : String) (p : Params) :
    (∀ scores, env.fitScores m (setParams (st.registry m) p) = Except.ok scores →
      env.histPlotFails = false → env.predDumpFails = false → env.prPlotFails = false →
      env.biasPlotFails = false →
      (ppr = true → ∃ v, recall_at_threshold env.y_test
          (boolLabels (scores_pctpop scores env.popThreshold)) = Except.ok v) →
      ((classifyStep env year em lm levels ppr cb sp st m p).1).hooksRun
        = st.hooksRun ++ expectedHooks ppr cb sp) ∧
    (∀ e, env.fitScores m (setParams (st.registry m) p) = Except.error e →
      ((classifyStep env year em lm levels ppr cb sp st m p).1).hooksRun = st.hooksRun ∧
      (classifyStep env year em lm levels ppr cb sp st m p).2 = some PyErr.fitError) ∧
    (∀ scores, env.fitScores m (setParams (st.registry m) p) = Except.ok scores →
      env.histPlotFails = true →
      (classifyStep env year em lm levels ppr cb sp st m p).2
          = some (PyErr.hookError Hook.histPlot) ∧
      ((classifyStep env year em lm levels ppr cb sp st m p).1).fileRows
        = st.fileRows) := by
  refine ⟨?_, ?_, ?_⟩
  · intro scores hfit h1 h2 h3 h4 hrec
    unfold classifyStep
    dsimp only
    rw [hfit]
    dsimp only
    rw [hooksPhase_no_failures env ppr cb sp _ h1 h2 h3 h4 hrec]
    dsimp only
    split
    · rfl
    · split
      · rfl
      · rfl
  · intro e hfit
    unfold classifyStep
    dsimp only
    rw [hfit]
    exact ⟨rfl, rfl⟩
  · intro scores hfit hh
    unfold classifyStep
    dsimp only
    rw [hfit]
    dsimp only
    unfold hooksPhase
    rw [hh]
    dsimp only
    exact ⟨rfl, rfl⟩

/-- Witness for `classify_hook_invocation` on `envPlain` with no hooks
requested: only the unconditional histogram plot runs. -/
theorem classify_hook_invocation_witness :
    envPlain.fitScores "DT" (setParams ((initState envPlain).registry "DT") [])
      = Except.ok [3, 1, 2] ∧
    ((classifyStep envPlain 2012 [] [] [] false false false (initState envPlain)
        "DT" []).1).hooksRun
      = (initState envPlain).hooksRun ++ expectedHooks false false false :=
  ⟨rfl,
    (classify_hook_invocation envPlain 2012 [] [] [] false false false
        (initState envPlain) "DT" []).1 [3, 1, 2] rfl rfl rfl rfl rfl
      (fun h => Bool.noConfusion h)⟩

/-- Claim C7 as stated is false on the code: with NO side-effect requested
(`plot_pr = None`, `compute_bias = False`, `save_pred = False`) the
scoring-histogram plot is still invoked (`plot_scores_hist` at pipeline.py
line 674 is unconditional); and when that plot raises, the exception
propagates — the run ends and the metric row for that configuration is never
written, instead of the failure being logged and swallowed. -/
theorem classify_hist_hook_unconditional :
    ((runPairs envPlain 2012 [] [] [] false false false (initState envPlain)
        [("DT", [])]).1).hooksRun = [Hook.histPlot] ∧
    (runPairs envHistFail 2012 [] ["recall"] [] false false false
        (initState envHistFail) [("DT", [])]).2
      = some (PyErr.hookError Hook.histPlot) ∧
    ((runPairs envHistFail 2012 [] ["recall"] [] false false false
        (initState envHistFail) [("DT", [])]).1).fileRows = [] :=
  ⟨rfl, rfl, rfl⟩

end NCRecidivism
